import Mathlib

set_option linter.unusedVariables false

/-!
Verification of the glin-sdk Python contract wrappers
(`glin_sdk/contracts/{escrow,registry,arbitration,client}.py` and
`glin_sdk/client.py`) against their natural-language specification.

The Python code is shallowly embedded: each wrapper class becomes a state
structure, each method a Lean function on that state.  The external
transport (`compose_call` / `create_signed_extrinsic` / `submit_extrinsic`)
is abstracted into a `SubmitOutcome` parameter describing what that whole
try-block interaction produced: either a receipt or a raised exception;
likewise read-path `substrate.query` calls are abstracted into an
`Except`-typed outcome.  Everything the SDK itself computes is embedded
directly from the source.
-/

namespace GlinSdk

/-- Abstract handle for the connected `SubstrateInterface` instance.
The SDK never inspects it; we only need to compare it for frame
conditions, so it is an opaque tag. -/
structure Substrate where
  tag : Nat
deriving DecidableEq, Repr

/-- Abstract signing keypair (`substrateinterface.Keypair`).  The SDK never
looks inside it; only identity matters. -/
structure Keypair where
  address : String
deriving DecidableEq, Repr

/-- One event in a transaction receipt: emitting contract address, event
tag and raw payload. -/
structure ChainEvent where
  emitter : String
  tag : String
  payload : String
deriving DecidableEq, Repr

/-- Receipt returned by `submit_extrinsic`: inclusion success flag plus
the ordered event log (`triggered_events`). -/
structure Receipt where
  is_success : Bool
  events : List ChainEvent
deriving DecidableEq, Repr

/-- Outcome of the whole compose/sign/submit try-block of a mutating
operation: either the node returned a receipt, or some step raised an
exception with message `msg` (Python `str(e)`). -/
inductive SubmitOutcome where
  | ok (receipt : Receipt)
  | raises (msg : String)
deriving DecidableEq, Repr

/-- Python truthiness of an `Optional[str]` field: `not x` is true exactly
when the field is `None` or the empty string (source guards are written
`if not self.contract_address`). -/
def pyFalsy (o : Option String) : Bool :=
  match o with
  | none => true
  | some s => s.isEmpty

/-- Heterogeneous argument passed to `_encode_call` (Python `*args`). -/
inductive CallArg where
  | str (s : String)
  | int (n : Int)
  | bool (b : Bool)
  | strList (l : List String)
  | intList (l : List Int)
  | optStr (o : Option String)
deriving DecidableEq, Repr

/-! ## Embedded `glin_sdk.contracts.types` dataclasses and enums -/

/-- `MilestoneStatus` enum. -/
inductive MilestoneStatus where
  | pending | completed | disputed | resolved | cancelled
deriving DecidableEq, Repr

/-- `ProfessionalRole` enum. -/
inductive ProfessionalRole where
  | lawyer | doctor | arbitrator | notary | auditor | consultantOther
deriving DecidableEq, Repr

/-- Python `.value` string of a `ProfessionalRole` member. -/
def ProfessionalRole.value : ProfessionalRole → String
  | .lawyer => "Lawyer"
  | .doctor => "Doctor"
  | .arbitrator => "Arbitrator"
  | .notary => "Notary"
  | .auditor => "Auditor"
  | .consultantOther => "ConsultantOther"

/-- `DisputeStatus` enum. -/
inductive DisputeStatus where
  | open | voting | resolved | appealed | cancelled
deriving DecidableEq, Repr

/-- `VoteChoice` enum. -/
inductive VoteChoice where
  | inFavorOfClaimant | inFavorOfDefendant
deriving DecidableEq, Repr

/-- Python `.value` string of a `VoteChoice` member. -/
def VoteChoice.value : VoteChoice → String
  | .inFavorOfClaimant => "InFavorOfClaimant"
  | .inFavorOfDefendant => "InFavorOfDefendant"

/-- `Milestone` dataclass. -/
structure Milestone where
  description : String
  amount : String
  status : MilestoneStatus
  deadline : Int
  oracle_verification : Bool
deriving DecidableEq, Repr

/-- `Agreement` dataclass. -/
structure Agreement where
  client : String
  provider : String
  total_amount : String
  deposited_amount : String
  created_at : Int
  dispute_timeout : Int
  oracle : Option String
  is_active : Bool
deriving DecidableEq, Repr

/-- `CreateAgreementParams` dataclass. -/
structure CreateAgreementParams where
  provider : String
  milestone_descriptions : List String
  milestone_amounts : List String
  milestone_deadlines : List Int
  dispute_timeout : Int
  oracle : Option String := none
  value : String := "0"
deriving DecidableEq, Repr

/-- `ProfessionalProfile` dataclass. -/
structure ProfessionalProfile where
  account : String
  role : ProfessionalRole
  stake_amount : String
  reputation_score : Int
  total_jobs : Int
  successful_jobs : Int
  registered_at : Int
  is_active : Bool
  metadata_uri : String
deriving DecidableEq, Repr

/-- `Review` dataclass. -/
structure Review where
  reviewer : String
  rating : Int
  comment : String
  timestamp : Int
deriving DecidableEq, Repr

/-- `RegisterProfessionalParams` dataclass. -/
structure RegisterProfessionalParams where
  role : ProfessionalRole
  metadata_uri : String
  stake_amount : String
deriving DecidableEq, Repr

/-- `SubmitReviewParams` dataclass. -/
structure SubmitReviewParams where
  professional : String
  rating : Int
  comment : String
deriving DecidableEq, Repr

/-- `Dispute` dataclass. -/
structure Dispute where
  dispute_id : String
  claimant : String
  defendant : String
  description : String
  evidence_uri : String
  status : DisputeStatus
  created_at : Int
  voting_ends_at : Int
  votes_for_claimant : String
  votes_for_defendant : String
  resolution : Option VoteChoice
  can_appeal : Bool
deriving DecidableEq, Repr

/-- `Arbitrator` dataclass. -/
structure Arbitrator where
  account : String
  stake : String
  disputes_participated : Int
  disputes_resolved : Int
  reputation : Int
  is_active : Bool
deriving DecidableEq, Repr

/-- `CreateDisputeParams` dataclass. -/
structure CreateDisputeParams where
  defendant : String
  description : String
  evidence_uri : String
deriving DecidableEq, Repr

/-- `VoteParams` dataclass. -/
structure VoteParams where
  dispute_id : String
  choice : VoteChoice
deriving DecidableEq, Repr

/-- `ContractResult` dataclass, polymorphic over the `data` payload type
(Python uses untyped `any`).  Field defaults mirror the dataclass. -/
structure ContractResult (α : Type) where
  success : Bool
  data : Option α := none
  error : Option String := none
  gas_consumed : Option Nat := none
  storage_deposit : Option String := none
deriving DecidableEq, Repr

/-! ## Wrapper states (the mutable fields of each Python class) -/

/-- State of an `EscrowContract` instance: `substrate`,
`contract_address`, `keypair`, and the always-`None` `contract` field. -/
structure EscrowState where
  substrate : Substrate
  contract_address : Option String
  keypair : Option Keypair
  contract : Option Unit
deriving DecidableEq, Repr

/-- State of a `RegistryContract` instance. -/
structure RegistryState where
  substrate : Substrate
  contract_address : Option String
  keypair : Option Keypair
  contract : Option Unit
deriving DecidableEq, Repr

/-- State of an `ArbitrationContract` instance. -/
structure ArbitrationState where
  substrate : Substrate
  contract_address : Option String
  keypair : Option Keypair
  contract : Option Unit
deriving DecidableEq, Repr

/-! ## `_encode_call` stubs (escrow.py:371, registry.py:362,
arbitration.py:457): every one ignores its inputs and returns `b''`. -/

namespace EscrowContract

/-- `EscrowContract._encode_call`: returns `b''` for every method name and
argument list. -/
def encode_call (method : String) (args : List CallArg) : List Nat :=
  []

end EscrowContract

namespace RegistryContract

/-- `RegistryContract._encode_call`: returns `b''` for every method name
and argument list. -/
def encode_call (method : String) (args : List CallArg) : List Nat :=
  []

end RegistryContract

namespace ArbitrationContract

/-- `ArbitrationContract._encode_call`: returns `b''` for every method
name and argument list. -/
def encode_call (method : String) (args : List CallArg) : List Nat :=
  []

end ArbitrationContract

/-! ## Read-only storage getters.  Each mirrors the source shape
`if not self.contract_address: return default` followed by a try-block
whose body is a stub returning the same default (the except arm also
returns the default). -/

namespace RegistryContract

/-- `RegistryContract.get_profile` (registry.py:236). -/
def get_profile (st : RegistryState) (account : String) :
    Option ProfessionalProfile :=
  if pyFalsy st.contract_address then none
  else none

/-- `RegistryContract.get_review` (registry.py:257). -/
def get_review (st : RegistryState) (professional : String)
    (review_index : Nat) : Option Review :=
  if pyFalsy st.contract_address then none
  else none

/-- `RegistryContract.get_review_count` (registry.py:282). -/
def get_review_count (st : RegistryState) (professional : String) : Nat :=
  if pyFalsy st.contract_address then 0
  else 0

/-- `RegistryContract.get_min_stake` (registry.py:302). -/
def get_min_stake (st : RegistryState) (role : ProfessionalRole) :
    String :=
  if pyFalsy st.contract_address then "0"
  else "0"

/-- `RegistryContract.is_active_professional` (registry.py:322). -/
def is_active_professional (st : RegistryState) (account : String) :
    Bool :=
  if pyFalsy st.contract_address then false
  else false

/-- `RegistryContract.get_all_reviews` (registry.py:342): loops review
indices `0 .. count-1`, appending each non-`None` review. -/
def get_all_reviews (st : RegistryState) (professional : String) :
    List Review :=
  let count := get_review_count st professional
  (List.range count).foldl
    (fun reviews i =>
      match get_review st professional i with
      | some r => reviews ++ [r]
      | none => reviews)
    []

end RegistryContract

namespace EscrowContract

/-- `EscrowContract.get_agreement` (escrow.py:304). -/
def get_agreement (st : EscrowState) (agreement_id : String) :
    Option Agreement :=
  if pyFalsy st.contract_address then none
  else none

/-- `EscrowContract.get_milestone` (escrow.py:326). -/
def get_milestone (st : EscrowState) (agreement_id : String)
    (milestone_index : Nat) : Option Milestone :=
  if pyFalsy st.contract_address then none
  else none

/-- `EscrowContract.get_milestone_count` (escrow.py:351). -/
def get_milestone_count (st : EscrowState) (agreement_id : String) :
    Nat :=
  if pyFalsy st.contract_address then 0
  else 0

end EscrowContract

namespace ArbitrationContract

/-- `ArbitrationContract.get_dispute` (arbitration.py:372). -/
def get_dispute (st : ArbitrationState) (dispute_id : String) :
    Option Dispute :=
  if pyFalsy st.contract_address then none
  else none

/-- `ArbitrationContract.get_arbitrator` (arbitration.py:392). -/
def get_arbitrator (st : ArbitrationState) (account : String) :
    Option Arbitrator :=
  if pyFalsy st.contract_address then none
  else none

/-- `ArbitrationContract.get_vote` (arbitration.py:412). -/
def get_vote (st : ArbitrationState) (dispute_id : String)
    (arbitrator : String) : Option VoteChoice :=
  if pyFalsy st.contract_address then none
  else none

/-- `ArbitrationContract.is_active_arbitrator` (arbitration.py:437). -/
def is_active_arbitrator (st : ArbitrationState) (account : String) :
    Bool :=
  if pyFalsy st.contract_address then false
  else false

end ArbitrationContract

/-! ## Mutating operations.

Every mutating method has the shape: guard `contract_address`, guard
`keypair`, then a try-block that composes the call (embedding the
`_encode_call` data and gas limits into the extrinsic), signs and submits
it.  The whole try-block interaction with the node is abstracted by the
`SubmitOutcome` argument; the code after it is embedded exactly. -/

/-- Shared tail of the plain mutating methods: on an exception the
except-arm returns `ContractResult(success=False, error=str(e))`; on a
receipt it returns `ContractResult(success=receipt.is_success,
error=None if receipt.is_success else "Transaction failed")`. -/
def submitResult {α : Type} (net : SubmitOutcome) : ContractResult α :=
  match net with
  | .raises e => { success := false, error := some e }
  | .ok receipt =>
      { success := receipt.is_success,
        error := if receipt.is_success then none
                 else some "Transaction failed" }

namespace RegistryContract

/-- `RegistryContract.set_keypair` (registry.py:54). -/
def set_keypair (st : RegistryState) (keypair : Keypair) : RegistryState :=
  { st with keypair := some keypair }

/-- `RegistryContract.register` (registry.py:58). -/
def register (st : RegistryState) (params : RegisterProfessionalParams)
    (net : SubmitOutcome) : ContractResult Unit :=
  if pyFalsy st.contract_address then
    { success := false, error := some "Contract not initialized" }
  else if st.keypair.isNone then
    { success := false, error := some "Keypair not set" }
  else
    submitResult net

/-- `RegistryContract.increase_stake` (registry.py:107). -/
def increase_stake (st : RegistryState) (additional_stake : String)
    (net : SubmitOutcome) : ContractResult Unit :=
  if pyFalsy st.contract_address then
    { success := false, error := some "Contract not initialized" }
  else if st.keypair.isNone then
    { success := false, error := some "Keypair not set" }
  else
    submitResult net

/-- `RegistryContract.submit_review` (registry.py:148): after the two
state guards it validates `params.rating` locally, then submits. -/
def submit_review (st : RegistryState) (params : SubmitReviewParams)
    (net : SubmitOutcome) : ContractResult Unit :=
  if pyFalsy st.contract_address then
    { success := false, error := some "Contract not initialized" }
  else if st.keypair.isNone then
    { success := false, error := some "Keypair not set" }
  else if params.rating < 1 ∨ params.rating > 5 then
    { success := false, error := some "Rating must be between 1 and 5" }
  else
    submitResult net

/-- `RegistryContract.withdraw_stake` (registry.py:200). -/
def withdraw_stake (st : RegistryState) (net : SubmitOutcome) :
    ContractResult Unit :=
  if pyFalsy st.contract_address then
    { success := false, error := some "Contract not initialized" }
  else if st.keypair.isNone then
    { success := false, error := some "Keypair not set" }
  else
    submitResult net

end RegistryContract

namespace EscrowContract

/-- `EscrowContract.set_keypair` (escrow.py:55). -/
def set_keypair (st : EscrowState) (keypair : Keypair) : EscrowState :=
  { st with keypair := some keypair }

/-- `EscrowContract._extract_agreement_id` (escrow.py:381): event parsing
is unimplemented, returns `None` for every receipt. -/
def extract_agreement_id (receipt : Receipt) : Option String :=
  none

/-- `EscrowContract.create_agreement` (escrow.py:59): on a successful
receipt it extracts the agreement id from the events and reports
`ContractResult(success=True, data=agreement_id)`. -/
def create_agreement (st : EscrowState) (params : CreateAgreementParams)
    (net : SubmitOutcome) : ContractResult String :=
  if pyFalsy st.contract_address then
    { success := false, error := some "Contract not initialized" }
  else if st.keypair.isNone then
    { success := false, error := some "Keypair not set" }
  else
    match net with
    | .raises e => { success := false, error := some e }
    | .ok receipt =>
        if receipt.is_success then
          { success := true, data := extract_agreement_id receipt }
        else
          { success := false, error := some "Transaction failed" }

/-- `EscrowContract.complete_milestone` (escrow.py:130). -/
def complete_milestone (st : EscrowState) (agreement_id : String)
    (milestone_index : Nat) (net : SubmitOutcome) : ContractResult Unit :=
  if pyFalsy st.contract_address then
    { success := false, error := some "Contract not initialized" }
  else if st.keypair.isNone then
    { success := false, error := some "Keypair not set" }
  else
    submitResult net

/-- `EscrowContract.approve_and_release` (escrow.py:173). -/
def approve_and_release (st : EscrowState) (agreement_id : String)
    (milestone_index : Nat) (net : SubmitOutcome) : ContractResult Unit :=
  if pyFalsy st.contract_address then
    { success := false, error := some "Contract not initialized" }
  else if st.keypair.isNone then
    { success := false, error := some "Keypair not set" }
  else
    submitResult net

/-- `EscrowContract.raise_dispute` (escrow.py:216). -/
def raise_dispute (st : EscrowState) (agreement_id : String)
    (milestone_index : Nat) (net : SubmitOutcome) : ContractResult Unit :=
  if pyFalsy st.contract_address then
    { success := false, error := some "Contract not initialized" }
  else if st.keypair.isNone then
    { success := false, error := some "Keypair not set" }
  else
    submitResult net

/-- `EscrowContract.resolve_dispute` (escrow.py:259). -/
def resolve_dispute (st : EscrowState) (agreement_id : String)
    (milestone_index : Nat) (release_to_provider : Bool)
    (net : SubmitOutcome) : ContractResult Unit :=
  if pyFalsy st.contract_address then
    { success := false, error := some "Contract not initialized" }
  else if st.keypair.isNone then
    { success := false, error := some "Keypair not set" }
  else
    submitResult net

end EscrowContract

namespace ArbitrationContract

/-- `ArbitrationContract.set_keypair` (arbitration.py:55). -/
def set_keypair (st : ArbitrationState) (keypair : Keypair) :
    ArbitrationState :=
  { st with keypair := some keypair }

/-- `ArbitrationContract._extract_dispute_id` (arbitration.py:462):
event parsing is unimplemented, returns `None` for every receipt. -/
def extract_dispute_id (receipt : Receipt) : Option String :=
  none

/-- `ArbitrationContract._extract_resolution` (arbitration.py:467):
event parsing is unimplemented, returns `None` for every receipt. -/
def extract_resolution (receipt : Receipt) : Option VoteChoice :=
  none

/-- `ArbitrationContract.register_arbitrator` (arbitration.py:59). -/
def register_arbitrator (st : ArbitrationState) (stake_amount : String)
    (net : SubmitOutcome) : ContractResult Unit :=
  if pyFalsy st.contract_address then
    { success := false, error := some "Contract not initialized" }
  else if st.keypair.isNone then
    { success := false, error := some "Keypair not set" }
  else
    submitResult net

/-- `ArbitrationContract.increase_arbitrator_stake` (arbitration.py:103). -/
def increase_arbitrator_stake (st : ArbitrationState)
    (additional_stake : String) (net : SubmitOutcome) :
    ContractResult Unit :=
  if pyFalsy st.contract_address then
    { success := false, error := some "Contract not initialized" }
  else if st.keypair.isNone then
    { success := false, error := some "Keypair not set" }
  else
    submitResult net

/-- `ArbitrationContract.create_dispute` (arbitration.py:144): on a
successful receipt it extracts the dispute id and reports it as data. -/
def create_dispute (st : ArbitrationState) (params : CreateDisputeParams)
    (net : SubmitOutcome) : ContractResult String :=
  if pyFalsy st.contract_address then
    { success := false, error := some "Contract not initialized" }
  else if st.keypair.isNone then
    { success := false, error := some "Keypair not set" }
  else
    match net with
    | .raises e => { success := false, error := some e }
    | .ok receipt =>
        if receipt.is_success then
          { success := true, data := extract_dispute_id receipt }
        else
          { success := false, error := some "Transaction failed" }

/-- `ArbitrationContract.start_voting` (arbitration.py:197). -/
def start_voting (st : ArbitrationState) (dispute_id : String)
    (net : SubmitOutcome) : ContractResult Unit :=
  if pyFalsy st.contract_address then
    { success := false, error := some "Contract not initialized" }
  else if st.keypair.isNone then
    { success := false, error := some "Keypair not set" }
  else
    submitResult net

/-- `ArbitrationContract.vote` (arbitration.py:238). -/
def vote (st : ArbitrationState) (params : VoteParams)
    (net : SubmitOutcome) : ContractResult Unit :=
  if pyFalsy st.contract_address then
    { success := false, error := some "Contract not initialized" }
  else if st.keypair.isNone then
    { success := false, error := some "Keypair not set" }
  else
    submitResult net

/-- `ArbitrationContract.finalize_dispute` (arbitration.py:286): on a
successful receipt it extracts the resolution and reports it as data. -/
def finalize_dispute (st : ArbitrationState) (dispute_id : String)
    (net : SubmitOutcome) : ContractResult VoteChoice :=
  if pyFalsy st.contract_address then
    { success := false, error := some "Contract not initialized" }
  else if st.keypair.isNone then
    { success := false, error := some "Keypair not set" }
  else
    match net with
    | .raises e => { success := false, error := some e }
    | .ok receipt =>
        if receipt.is_success then
          { success := true, data := extract_resolution receipt }
        else
          { success := false, error := some "Transaction failed" }

/-- `ArbitrationContract.appeal_dispute` (arbitration.py:331). -/
def appeal_dispute (st : ArbitrationState) (dispute_id : String)
    (net : SubmitOutcome) : ContractResult Unit :=
  if pyFalsy st.contract_address then
    { success := false, error := some "Contract not initialized" }
  else if st.keypair.isNone then
    { success := false, error := some "Keypair not set" }
  else
    submitResult net

end ArbitrationContract

/-! ## `GlinContracts` (contracts/client.py) -/

/-- State of a `GlinContracts` instance: its own `substrate` and
`keypair` fields plus the three sub-wrappers it constructs. -/
structure GlinContracts where
  substrate : Substrate
  keypair : Option Keypair
  escrow : EscrowState
  registry : RegistryState
  arbitration : ArbitrationState
deriving DecidableEq, Repr

namespace GlinContracts

/-- `GlinContracts.__init__` (contracts/client.py:32): builds the three
sub-wrappers sharing the same substrate and keypair. -/
def init (substrate : Substrate) (keypair : Option Keypair)
    (escrow_address registry_address arbitration_address : Option String) :
    GlinContracts :=
  { substrate := substrate
    keypair := keypair
    escrow := { substrate := substrate, contract_address := escrow_address,
                keypair := keypair, contract := none }
    registry := { substrate := substrate,
                  contract_address := registry_address,
                  keypair := keypair, contract := none }
    arbitration := { substrate := substrate,
                     contract_address := arbitration_address,
                     keypair := keypair, contract := none } }

/-- `GlinContracts.set_keypair` (contracts/client.py:77): stores the new
keypair on itself and forwards it to all three sub-wrappers. -/
def set_keypair (gc : GlinContracts) (keypair : Keypair) : GlinContracts :=
  { gc with
    keypair := some keypair
    escrow := EscrowContract.set_keypair gc.escrow keypair
    registry := RegistryContract.set_keypair gc.registry keypair
    arbitration := ArbitrationContract.set_keypair gc.arbitration keypair }

/-- `GlinContracts.is_contract` (contracts/client.py:89): queries
`Contracts.ContractInfoOf` inside a try-block; any exception yields
`False`, otherwise the result is `value is not None`. -/
def is_contract (q : Except String (Option Unit)) : Bool :=
  match q with
  | .error _ => false
  | .ok v => v.isSome

/-- Raw `System.Account` data record as returned by the node: integer
balances, with the frozen amount under either the `frozen` or the legacy
`miscFrozen` key. -/
structure AccountData where
  free : Nat
  reserved : Nat
  frozen : Option Nat := none
  miscFrozen : Option Nat := none
deriving DecidableEq, Repr

/-- `GlinContracts.get_contract_balance` (contracts/client.py:105):
queries `System.Account` with NO try-block — an exception from the query
propagates to the caller — and renders the free balance with `str`. -/
def get_contract_balance (q : Except String AccountData) :
    Except String String :=
  match q with
  | .error e => .error e
  | .ok data => .ok (Nat.repr data.free)

end GlinContracts

/-! ## `GlinClient` (glin_sdk/client.py) and its dataclasses -/

/-- `Balance` dataclass (glin_sdk/types.py): four decimal-string
fields. -/
structure Balance where
  free : String
  reserved : String
  frozen : String
  total : String
deriving DecidableEq, Repr

/-- `ChainTask` dataclass (glin_sdk/types.py). -/
structure ChainTask where
  id : String
  creator : String
  bounty : String
  min_providers : Nat
  max_providers : Nat
  ipfs_hash : String
  status : String
deriving DecidableEq, Repr

/-- `ChainProvider` dataclass (glin_sdk/types.py). -/
structure ChainProvider where
  account : String
  stake : String
  reputation_score : Int
  hardware_tier : String
  status : String
  is_slashed : Bool
deriving DecidableEq, Repr

/-- Raw `TaskRegistry.Tasks` storage record as returned by the node. -/
structure TaskStorage where
  creator : String
  bounty : Nat
  minProviders : Nat
  maxProviders : Nat
  ipfsHash : String
  status : String
deriving DecidableEq, Repr

/-- Raw `ProviderStaking.Providers` storage record as returned by the
node. -/
structure ProviderStorage where
  stake : Nat
  reputationScore : Int
  hardwareTier : String
  status : String
  isSlashed : Bool
deriving DecidableEq, Repr

namespace GlinClient

/-- `GlinClient.get_balance` (client.py:26): queries `System.Account`
with NO try-block — an exception from the query propagates — and builds
a `Balance` whose fields are `str` renderings of the integer amounts,
with `total=str(data["free"] + data["reserved"])` computed by exact
integer addition. -/
def get_balance (q : Except String GlinContracts.AccountData) :
    Except String Balance :=
  match q with
  | .error e => .error e
  | .ok data =>
      .ok { free := Nat.repr data.free
            reserved := Nat.repr data.reserved
            frozen := Nat.repr (data.frozen.getD (data.miscFrozen.getD 0))
            total := Nat.repr (data.free + data.reserved) }

/-- `GlinClient.get_task` (client.py:40): queries `TaskRegistry.Tasks`
inside a try-block; an exception or an absent value both yield `None`,
otherwise the record is rendered into a `ChainTask`. -/
def get_task (task_id : String)
    (q : Except String (Option TaskStorage)) : Option ChainTask :=
  match q with
  | .error _ => none
  | .ok none => none
  | .ok (some td) =>
      some { id := task_id, creator := td.creator,
             bounty := Nat.repr td.bounty,
             min_providers := td.minProviders,
             max_providers := td.maxProviders,
             ipfs_hash := td.ipfsHash, status := td.status }

/-- `GlinClient.get_provider` (client.py:65): queries
`ProviderStaking.Providers` inside a try-block; an exception or an
absent value both yield `None`. -/
def get_provider (address : String)
    (q : Except String (Option ProviderStorage)) : Option ChainProvider :=
  match q with
  | .error _ => none
  | .ok none => none
  | .ok (some ps) =>
      some { account := address, stake := Nat.repr ps.stake,
             reputation_score := ps.reputationScore,
             hardware_tier := ps.hardwareTier,
             status := ps.status, is_slashed := ps.isSlashed }

end GlinClient

/-- The error message produced by the two state guards shared by every
mutating method: address guard first, then keypair guard. -/
def guardMsg (addr : Option String) : String :=
  if pyFalsy addr then "Contract not initialized" else "Keypair not set"

/-! ## Decimal decoding.

Python `str(int)` on the non-negative chain balances is embedded as
`Nat.repr`.  To state that the rendered strings carry the exact integers
(claim about `total = free + reserved` in exact integer arithmetic) we
define the decimal decoder and prove it inverts `Nat.repr`. -/

/-- Numeric value of a decimal digit character. -/
def decDigitVal (c : Char) : Nat :=
  c.toNat - 48

/-- Value of a most-significant-digit-first decimal digit list. -/
def decValue (cs : List Char) : Nat :=
  cs.foldl (fun n c => 10 * n + decDigitVal c) 0

/-- Value of a decimal string. -/
def decodeDec (s : String) : Nat :=
  decValue s.data

/-! ## Helper lemmas about `Nat.toDigitsCore` -/

lemma decDigitVal_digitChar (m : Nat) (h : m < 10) :
    decDigitVal (Nat.digitChar m) = m := by
  interval_cases m <;> rfl

lemma toDigitsCore_fuel :
    ∀ (fuel fuel' n : Nat) (ds : List Char), n < fuel → n < fuel' →
      Nat.toDigitsCore 10 fuel n ds = Nat.toDigitsCore 10 fuel' n ds := by
  intro fuel
  induction fuel with
  | zero => intro fuel' n ds h h'; omega
  | succ f ih =>
    intro fuel' n ds h h'
    cases fuel' with
    | zero => omega
    | succ f' =>
      simp only [Nat.toDigitsCore]
      by_cases h10 : n / 10 = 0
      · simp [h10]
      · have hn : 0 < n := by
          rcases Nat.eq_zero_or_pos n with h0 | h0
          · subst h0; simp at h10
          · exact h0
        have hlt : n / 10 < n := Nat.div_lt_self hn (by norm_num)
        simp only [h10, if_false]
        exact ih f' (n / 10) _ (by omega) (by omega)

lemma toDigitsCore_append :
    ∀ (fuel n : Nat) (ds : List Char), n < fuel →
      Nat.toDigitsCore 10 fuel n ds = Nat.toDigitsCore 10 fuel n [] ++ ds := by
  intro fuel
  induction fuel with
  | zero => intro n ds h; omega
  | succ f ih =>
    intro n ds h
    simp only [Nat.toDigitsCore]
    by_cases h10 : n / 10 = 0
    · simp [h10]
    · have hn : 0 < n := by
        rcases Nat.eq_zero_or_pos n with h0 | h0
        · subst h0; simp at h10
        · exact h0
      have hlt : n / 10 < n := Nat.div_lt_self hn (by norm_num)
      simp only [h10, if_false]
      rw [ih (n / 10) (Nat.digitChar (n % 10) :: ds) (by omega),
          ih (n / 10) [Nat.digitChar (n % 10)] (by omega)]
      simp

lemma toDigits_shape (n : Nat) (h10 : n / 10 ≠ 0) :
    Nat.toDigits 10 n =
      Nat.toDigits 10 (n / 10) ++ [Nat.digitChar (n % 10)] := by
  have hn : 0 < n := by
    rcases Nat.eq_zero_or_pos n with h0 | h0
    · subst h0; simp at h10
    · exact h0
  have hlt : n / 10 < n := Nat.div_lt_self hn (by norm_num)
  show Nat.toDigitsCore 10 (n + 1) n [] = _
  simp only [Nat.toDigitsCore, h10, if_false]
  rw [toDigitsCore_append n (n / 10) [Nat.digitChar (n % 10)] (by omega),
      toDigitsCore_fuel n (n / 10 + 1) (n / 10) [] (by omega) (by omega)]
  rfl

lemma foldl_toDigits (n : Nat) : ∀ a : Nat,
    List.foldl (fun m c => 10 * m + decDigitVal c) a (Nat.toDigits 10 n) =
      a * 10 ^ (Nat.toDigits 10 n).length + n := by
  induction n using Nat.strong_induction_on with
  | _ n ih =>
    intro a
    have hmod : n % 10 < 10 := Nat.mod_lt _ (by norm_num)
    by_cases h10 : n / 10 = 0
    · have hn : n < 10 := (Nat.div_eq_zero_iff (by norm_num)).mp h10
      have hdig : Nat.toDigits 10 n = [Nat.digitChar (n % 10)] := by
        show Nat.toDigitsCore 10 (n + 1) n [] = _
        simp [Nat.toDigitsCore, h10]
      rw [hdig]
      simp only [List.foldl_cons, List.foldl_nil, List.length_singleton]
      rw [decDigitVal_digitChar (n % 10) hmod, Nat.mod_eq_of_lt hn, pow_one]
      ring
    · have hn : 0 < n := by
        rcases Nat.eq_zero_or_pos n with h0 | h0
        · subst h0; simp at h10
        · exact h0
      have hlt : n / 10 < n := Nat.div_lt_self hn (by norm_num)
      rw [toDigits_shape n h10, List.foldl_append, ih (n / 10) hlt a]
      simp only [List.foldl, List.length_append, List.length_cons,
                 List.length_nil, decDigitVal_digitChar (n % 10) hmod]
      calc 10 * (a * 10 ^ (Nat.toDigits 10 (n / 10)).length + n / 10)
             + n % 10
          = a * 10 ^ ((Nat.toDigits 10 (n / 10)).length + 1)
              + (10 * (n / 10) + n % 10) := by ring
        _ = a * 10 ^ ((Nat.toDigits 10 (n / 10)).length + 0 + 1) + n := by
              rw [Nat.div_add_mod]

lemma decodeDec_repr (n : Nat) : decodeDec (Nat.repr n) = n := by
  show decValue (List.asString (Nat.toDigits 10 n)).data = n
  have hdata : (List.asString (Nat.toDigits 10 n)).data = Nat.toDigits 10 n :=
    rfl
  rw [hdata]
  show List.foldl (fun m c => 10 * m + decDigitVal c) 0
        (Nat.toDigits 10 n) = n
  rw [foldl_toDigits n 0]
  simp

/-! ## Shared lemmas about the guard chain of the mutating methods -/

lemma submitResult_error {α : Type} (net : SubmitOutcome) :
    (submitResult (α := α) net).success = false →
    (submitResult (α := α) net).error ≠ none := by
  cases net with
  | raises e => simp [submitResult]
  | ok r =>
    rcases r with ⟨s, evs⟩
    cases s <;> simp [submitResult]

lemma guardChain_eq {α : Type} (addr : Option String) (kp : Option Keypair)
    (tail : ContractResult α) (h : pyFalsy addr = true ∨ kp.isNone = true) :
    (if pyFalsy addr then
       ({ success := false, error := some "Contract not initialized" } :
         ContractResult α)
     else if kp.isNone then
       { success := false, error := some "Keypair not set" }
     else tail) =
      { success := false, error := some (guardMsg addr) } := by
  rcases h with h | h
  · simp [h, guardMsg]
  · by_cases ha : pyFalsy addr <;> simp [ha, h, guardMsg]

lemma guardChain_error {α : Type} (addr : Option String) (kp : Option Keypair)
    (tail : ContractResult α)
    (htail : tail.success = false → tail.error ≠ none) :
    (if pyFalsy addr then
       ({ success := false, error := some "Contract not initialized" } :
         ContractResult α)
     else if kp.isNone then
       { success := false, error := some "Keypair not set" }
     else tail).success = false →
    (if pyFalsy addr then
       ({ success := false, error := some "Contract not initialized" } :
         ContractResult α)
     else if kp.isNone then
       { success := false, error := some "Keypair not set" }
     else tail).error ≠ none := by
  by_cases ha : pyFalsy addr
  · simp [ha]
  · by_cases hk : kp.isNone
    · simp [ha, hk]
    · simpa [ha, hk] using htail

lemma reviewTail_error (p : SubmitReviewParams) (net : SubmitOutcome) :
    (if p.rating < 1 ∨ p.rating > 5 then
       ({ success := false, error := some "Rating must be between 1 and 5" } :
         ContractResult Unit)
     else submitResult net).success = false →
    (if p.rating < 1 ∨ p.rating > 5 then
       ({ success := false, error := some "Rating must be between 1 and 5" } :
         ContractResult Unit)
     else submitResult net).error ≠ none := by
  by_cases hr : p.rating < 1 ∨ p.rating > 5
  · simp [hr]
  · simpa [hr] using submitResult_error (α := Unit) net

lemma createTail_error {α : Type} (extract : Receipt → Option α)
    (net : SubmitOutcome) :
    (match net with
     | .raises e =>
         ({ success := false, error := some e } : ContractResult α)
     | .ok receipt =>
         if receipt.is_success then
           { success := true, data := extract receipt }
         else
           { success := false, error := some "Transaction failed" }).success =
        false →
    (match net with
     | .raises e =>
         ({ success := false, error := some e } : ContractResult α)
     | .ok receipt =>
         if receipt.is_success then
           { success := true, data := extract receipt }
         else
           { success := false, error := some "Transaction failed" }).error ≠
        none := by
  cases net with
  | raises e => simp
  | ok r =>
    rcases r with ⟨s, evs⟩
    cases s <;> simp

/-! ## Claim theorems -/

/-- C1: with contract address and keypair set, `submit_review` rejects any
rating strictly below 1 or strictly above 5 with the fixed local
validation failure (the same `ContractResult` for every network outcome,
so no network call influences it), while ratings 1 and 5 pass validation
and the result is exactly the submission tail. -/
theorem C1_submit_review_rating_validation
    (st : RegistryState) (params : SubmitReviewParams) (net : SubmitOutcome)
    (haddr : pyFalsy st.contract_address = false)
    (hkp : st.keypair.isNone = false) :
    ((params.rating < 1 ∨ params.rating > 5) →
      RegistryContract.submit_review st params net =
        { success := false,
          error := some "Rating must be between 1 and 5" }) ∧
    ((params.rating = 1 ∨ params.rating = 5) →
      RegistryContract.submit_review st params net = submitResult net) := by
  unfold RegistryContract.submit_review
  constructor
  · intro hr
    simp [haddr, hkp, hr]
  · intro hr
    have hok : ¬(params.rating < 1 ∨ params.rating > 5) := by
      rcases hr with h | h <;> omega
    simp [haddr, hkp, hok]

/-- Witness for C1 at a wrapper with address and keypair set: rating 6 is
rejected with the validation error, rating 5 goes through to
submission. -/
theorem C1_submit_review_rating_validation_witness :
    pyFalsy (some "5RegistryAddr") = false ∧
    (some (⟨"5Alice"⟩ : Keypair)).isNone = false ∧
    RegistryContract.submit_review
      ⟨⟨0⟩, some "5RegistryAddr", some ⟨"5Alice"⟩, none⟩
      ⟨"5Prof", 6, "bad"⟩ (.ok ⟨true, []⟩) =
      { success := false, error := some "Rating must be between 1 and 5" } ∧
    RegistryContract.submit_review
      ⟨⟨0⟩, some "5RegistryAddr", some ⟨"5Alice"⟩, none⟩
      ⟨"5Prof", 5, "good"⟩ (.ok ⟨true, []⟩) =
      submitResult (.ok ⟨true, []⟩) := by
  refine ⟨rfl, rfl, ?_, ?_⟩
  · exact (C1_submit_review_rating_validation
      ⟨⟨0⟩, some "5RegistryAddr", some ⟨"5Alice"⟩, none⟩
      ⟨"5Prof", 6, "bad"⟩ (.ok ⟨true, []⟩) rfl rfl).1
      (Or.inr (by norm_num))
  · exact (C1_submit_review_rating_validation
      ⟨⟨0⟩, some "5RegistryAddr", some ⟨"5Alice"⟩, none⟩
      ⟨"5Prof", 5, "good"⟩ (.ok ⟨true, []⟩) rfl rfl).2 (Or.inr rfl)

/-- C2: at the failing input — a `create_agreement` call whose submission
succeeds but whose receipt yields no extractable `AgreementCreated`
identifier (zero events) — the code reports a FULL success with a silent
`none` payload, not the partial-success result the claim requires. -/
theorem C2_create_agreement_full_success_silent_none :
    EscrowContract.create_agreement
      ⟨⟨0⟩, some "5EscrowAddr", some ⟨"5Alice"⟩, none⟩
      ⟨"5Provider", ["Design"], ["500"], [1234567890], 1234567890, none,
        "500"⟩
      (.ok ⟨true, []⟩) =
      { success := true, data := none } := by
  rfl

/-- C3: for every method name and every argument list, the `_encode_call`
stub of each of the three contract wrappers returns the empty byte
string. -/
theorem C3_encode_call_empty_bytes :
    ∀ (method : String) (args : List CallArg),
      EscrowContract.encode_call method args = [] ∧
      RegistryContract.encode_call method args = [] ∧
      ArbitrationContract.encode_call method args = [] :=
  fun _ _ => ⟨rfl, rfl, rfl⟩

/-- C4: every storage getter returns its fixed default for every wrapper
state and every input: `none` for the seven record getters, `0` for the
two counters, `"0"` for `get_min_stake`, `false` for the two activity
checks. -/
theorem C4_storage_getters_fixed_defaults :
    ∀ (re : RegistryState) (es : EscrowState) (ar : ArbitrationState)
      (account professional agreement_id dispute_id arbitrator : String)
      (review_index milestone_index : Nat) (role : ProfessionalRole),
      RegistryContract.get_profile re account = none ∧
      RegistryContract.get_review re professional review_index = none ∧
      EscrowContract.get_agreement es agreement_id = none ∧
      EscrowContract.get_milestone es agreement_id milestone_index = none ∧
      ArbitrationContract.get_dispute ar dispute_id = none ∧
      ArbitrationContract.get_arbitrator ar account = none ∧
      ArbitrationContract.get_vote ar dispute_id arbitrator = none ∧
      RegistryContract.get_review_count re professional = 0 ∧
      EscrowContract.get_milestone_count es agreement_id = 0 ∧
      RegistryContract.get_min_stake re role = "0" ∧
      RegistryContract.is_active_professional re account = false ∧
      ArbitrationContract.is_active_arbitrator ar account = false := by
  intro re es ar account professional agreement_id dispute_id arbitrator
    review_index milestone_index role
  simp [RegistryContract.get_profile, RegistryContract.get_review,
        EscrowContract.get_agreement, EscrowContract.get_milestone,
        ArbitrationContract.get_dispute, ArbitrationContract.get_arbitrator,
        ArbitrationContract.get_vote, RegistryContract.get_review_count,
        EscrowContract.get_milestone_count, RegistryContract.get_min_stake,
        RegistryContract.is_active_professional,
        ArbitrationContract.is_active_arbitrator]

/-- C5: call-data encoding is deterministic — identical method names and
identical argument lists give byte-identical output for all three
wrappers. -/
theorem C5_encode_call_deterministic :
    ∀ (m m' : String) (a a' : List CallArg), m = m' → a = a' →
      EscrowContract.encode_call m a = EscrowContract.encode_call m' a' ∧
      RegistryContract.encode_call m a = RegistryContract.encode_call m' a' ∧
      ArbitrationContract.encode_call m a =
        ArbitrationContract.encode_call m' a' := by
  intro m m' a a' hm ha
  subst hm
  subst ha
  exact ⟨rfl, rfl, rfl⟩

/-- Witness for C5 at a concrete method and argument list. -/
theorem C5_encode_call_deterministic_witness :
    "submit_review" = "submit_review" ∧
    [CallArg.str "5Prof", CallArg.int 5, CallArg.str "Great"] =
      [CallArg.str "5Prof", CallArg.int 5, CallArg.str "Great"] ∧
    EscrowContract.encode_call "submit_review"
        [CallArg.str "5Prof", CallArg.int 5, CallArg.str "Great"] =
      EscrowContract.encode_call "submit_review"
        [CallArg.str "5Prof", CallArg.int 5, CallArg.str "Great"] ∧
    RegistryContract.encode_call "submit_review"
        [CallArg.str "5Prof", CallArg.int 5, CallArg.str "Great"] =
      RegistryContract.encode_call "submit_review"
        [CallArg.str "5Prof", CallArg.int 5, CallArg.str "Great"] ∧
    ArbitrationContract.encode_call "submit_review"
        [CallArg.str "5Prof", CallArg.int 5, CallArg.str "Great"] =
      ArbitrationContract.encode_call "submit_review"
        [CallArg.str "5Prof", CallArg.int 5, CallArg.str "Great"] :=
  ⟨rfl, rfl,
    (C5_encode_call_deterministic _ _ _ _ rfl rfl).1,
    (C5_encode_call_deterministic _ _ _ _ rfl rfl).2.1,
    (C5_encode_call_deterministic _ _ _ _ rfl rfl).2.2⟩

/-- C6: every mutating operation of the three wrappers returns a
`ContractResult`; when the contract address or the keypair is unset
(Python-falsy) the result is the fixed failure carrying
"Contract not initialized" or "Keypair not set", identical for every
network outcome (so no submission happens); and whenever `success` is
`false` the `error` field is non-`None`. -/
theorem C6_mutating_guards_and_error_fields :
    ∀ (re : RegistryState) (es : EscrowState) (ar : ArbitrationState)
      (rp : RegisterProfessionalParams) (sp : SubmitReviewParams)
      (cp : CreateAgreementParams) (dp : CreateDisputeParams)
      (vp : VoteParams) (stake aid did : String) (mi : Nat) (rel : Bool)
      (net : SubmitOutcome),
      (pyFalsy re.contract_address = true ∨ re.keypair.isNone = true →
        RegistryContract.register re rp net =
          { success := false, error := some (guardMsg re.contract_address) } ∧
        RegistryContract.increase_stake re stake net =
          { success := false, error := some (guardMsg re.contract_address) } ∧
        RegistryContract.submit_review re sp net =
          { success := false, error := some (guardMsg re.contract_address) } ∧
        RegistryContract.withdraw_stake re net =
          { success := false,
            error := some (guardMsg re.contract_address) }) ∧
      (pyFalsy es.contract_address = true ∨ es.keypair.isNone = true →
        EscrowContract.create_agreement es cp net =
          { success := false, error := some (guardMsg es.contract_address) } ∧
        EscrowContract.complete_milestone es aid mi net =
          { success := false, error := some (guardMsg es.contract_address) } ∧
        EscrowContract.approve_and_release es aid mi net =
          { success := false, error := some (guardMsg es.contract_address) } ∧
        EscrowContract.raise_dispute es aid mi net =
          { success := false, error := some (guardMsg es.contract_address) } ∧
        EscrowContract.resolve_dispute es aid mi rel net =
          { success := false,
            error := some (guardMsg es.contract_address) }) ∧
      (pyFalsy ar.contract_address = true ∨ ar.keypair.isNone = true →
        ArbitrationContract.register_arbitrator ar stake net =
          { success := false, error := some (guardMsg ar.contract_address) } ∧
        ArbitrationContract.increase_arbitrator_stake ar stake net =
          { success := false, error := some (guardMsg ar.contract_address) } ∧
        ArbitrationContract.create_dispute ar dp net =
          { success := false, error := some (guardMsg ar.contract_address) } ∧
        ArbitrationContract.start_voting ar did net =
          { success := false, error := some (guardMsg ar.contract_address) } ∧
        ArbitrationContract.vote ar vp net =
          { success := false, error := some (guardMsg ar.contract_address) } ∧
        ArbitrationContract.finalize_dispute ar did net =
          { success := false, error := some (guardMsg ar.contract_address) } ∧
        ArbitrationContract.appeal_dispute ar did net =
          { success := false,
            error := some (guardMsg ar.contract_address) }) ∧
      ((RegistryContract.register re rp net).success = false →
        (RegistryContract.register re rp net).error ≠ none) ∧
      ((RegistryContract.increase_stake re stake net).success = false →
        (RegistryContract.increase_stake re stake net).error ≠ none) ∧
      ((RegistryContract.submit_review re sp net).success = false →
        (RegistryContract.submit_review re sp net).error ≠ none) ∧
      ((RegistryContract.withdraw_stake re net).success = false →
        (RegistryContract.withdraw_stake re net).error ≠ none) ∧
      ((EscrowContract.create_agreement es cp net).success = false →
        (EscrowContract.create_agreement es cp net).error ≠ none) ∧
      ((EscrowContract.complete_milestone es aid mi net).success = false →
        (EscrowContract.complete_milestone es aid mi net).error ≠ none) ∧
      ((EscrowContract.approve_and_release es aid mi net).success = false →
        (EscrowContract.approve_and_release es aid mi net).error ≠ none) ∧
      ((EscrowContract.raise_dispute es aid mi net).success = false →
        (EscrowContract.raise_dispute es aid mi net).error ≠ none) ∧
      ((EscrowContract.resolve_dispute es aid mi rel net).success = false →
        (EscrowContract.resolve_dispute es aid mi rel net).error ≠ none) ∧
      ((ArbitrationContract.register_arbitrator ar stake net).success =
          false →
        (ArbitrationContract.register_arbitrator ar stake net).error ≠
          none) ∧
      ((ArbitrationContract.increase_arbitrator_stake ar stake net).success =
          false →
        (ArbitrationContract.increase_arbitrator_stake ar stake net).error ≠
          none) ∧
      ((ArbitrationContract.create_dispute ar dp net).success = false →
        (ArbitrationContract.create_dispute ar dp net).error ≠ none) ∧
      ((ArbitrationContract.start_voting ar did net).success = false →
        (ArbitrationContract.start_voting ar did net).error ≠ none) ∧
      ((ArbitrationContract.vote ar vp net).success = false →
        (ArbitrationContract.vote ar vp net).error ≠ none) ∧
      ((ArbitrationContract.finalize_dispute ar did net).success = false →
        (ArbitrationContract.finalize_dispute ar did net).error ≠ none) ∧
      ((ArbitrationContract.appeal_dispute ar did net).success = false →
        (ArbitrationContract.appeal_dispute ar did net).error ≠ none) := by
  intro re es ar rp sp cp dp vp stake aid did mi rel net
  refine ⟨?_, ?_, ?_, ?_, ?_, ?_, ?_, ?_, ?_, ?_, ?_, ?_, ?_, ?_, ?_, ?_,
    ?_, ?_, ?_⟩
  · intro h
    refine ⟨?_, ?_, ?_, ?_⟩
    · unfold RegistryContract.register
      exact guardChain_eq _ _ _ h
    · unfold RegistryContract.increase_stake
      exact guardChain_eq _ _ _ h
    · unfold RegistryContract.submit_review
      exact guardChain_eq _ _ _ h
    · unfold RegistryContract.withdraw_stake
      exact guardChain_eq _ _ _ h
  · intro h
    refine ⟨?_, ?_, ?_, ?_, ?_⟩
    · unfold EscrowContract.create_agreement
      exact guardChain_eq _ _ _ h
    · unfold EscrowContract.complete_milestone
      exact guardChain_eq _ _ _ h
    · unfold EscrowContract.approve_and_release
      exact guardChain_eq _ _ _ h
    · unfold EscrowContract.raise_dispute
      exact guardChain_eq _ _ _ h
    · unfold EscrowContract.resolve_dispute
      exact guardChain_eq _ _ _ h
  · intro h
    refine ⟨?_, ?_, ?_, ?_, ?_, ?_, ?_⟩
    · unfold ArbitrationContract.register_arbitrator
      exact guardChain_eq _ _ _ h
    · unfold ArbitrationContract.increase_arbitrator_stake
      exact guardChain_eq _ _ _ h
    · unfold ArbitrationContract.create_dispute
      exact guardChain_eq _ _ _ h
    · unfold ArbitrationContract.start_voting
      exact guardChain_eq _ _ _ h
    · unfold ArbitrationContract.vote
      exact guardChain_eq _ _ _ h
    · unfold ArbitrationContract.finalize_dispute
      exact guardChain_eq _ _ _ h
    · unfold ArbitrationContract.appeal_dispute
      exact guardChain_eq _ _ _ h
  · unfold RegistryContract.register
    exact guardChain_error _ _ _ (submitResult_error net)
  · unfold RegistryContract.increase_stake
    exact guardChain_error _ _ _ (submitResult_error net)
  · unfold RegistryContract.submit_review
    exact guardChain_error _ _ _ (reviewTail_error sp net)
  · unfold RegistryContract.withdraw_stake
    exact guardChain_error _ _ _ (submitResult_error net)
  · unfold EscrowContract.create_agreement
    exact guardChain_error _ _ _
      (createTail_error EscrowContract.extract_agreement_id net)
  · unfold EscrowContract.complete_milestone
    exact guardChain_error _ _ _ (submitResult_error net)
  · unfold EscrowContract.approve_and_release
    exact guardChain_error _ _ _ (submitResult_error net)
  · unfold EscrowContract.raise_dispute
    exact guardChain_error _ _ _ (submitResult_error net)
  · unfold EscrowContract.resolve_dispute
    exact guardChain_error _ _ _ (submitResult_error net)
  · unfold ArbitrationContract.register_arbitrator
    exact guardChain_error _ _ _ (submitResult_error net)
  · unfold ArbitrationContract.increase_arbitrator_stake
    exact guardChain_error _ _ _ (submitResult_error net)
  · unfold ArbitrationContract.create_dispute
    exact guardChain_error _ _ _
      (createTail_error ArbitrationContract.extract_dispute_id net)
  · unfold ArbitrationContract.start_voting
    exact guardChain_error _ _ _ (submitResult_error net)
  · unfold ArbitrationContract.vote
    exact guardChain_error _ _ _ (submitResult_error net)
  · unfold ArbitrationContract.finalize_dispute
    exact guardChain_error _ _ _
      (createTail_error ArbitrationContract.extract_resolution net)
  · unfold ArbitrationContract.appeal_dispute
    exact guardChain_error _ _ _ (submitResult_error net)

/-- Witness for C6: a registry with no contract address applies the guard
(yielding the fixed "Contract not initialized" failure even though the
supplied network outcome would have succeeded), and a fully initialized
arbitration wrapper whose submission fails has a non-`None` error. -/
theorem C6_mutating_guards_and_error_fields_witness :
    (pyFalsy (none : Option String) = true ∨
      (none : Option Keypair).isNone = true) ∧
    RegistryContract.register ⟨⟨0⟩, none, none, none⟩
        ⟨.lawyer, "ipfs://meta", "100"⟩ (.ok ⟨false, []⟩) =
      { success := false, error := some (guardMsg none) } ∧
    (ArbitrationContract.vote ⟨⟨0⟩, some "5ArbAddr", some ⟨"5Alice"⟩, none⟩
        ⟨"0", .inFavorOfClaimant⟩ (.ok ⟨false, []⟩)).success = false ∧
    (ArbitrationContract.vote ⟨⟨0⟩, some "5ArbAddr", some ⟨"5Alice"⟩, none⟩
        ⟨"0", .inFavorOfClaimant⟩ (.ok ⟨false, []⟩)).error ≠ none := by
  have h := C6_mutating_guards_and_error_fields
    ⟨⟨0⟩, none, none, none⟩
    ⟨⟨0⟩, some "5EscrowAddr", some ⟨"5Alice"⟩, none⟩
    ⟨⟨0⟩, some "5ArbAddr", some ⟨"5Alice"⟩, none⟩
    ⟨.lawyer, "ipfs://meta", "100"⟩ ⟨"5Prof", 5, "ok"⟩
    ⟨"5Provider", [], [], [], 0, none, "0"⟩ ⟨"5Def", "d", "e"⟩
    ⟨"0", .inFavorOfClaimant⟩ "100" "0" "0" 0 true (.ok ⟨false, []⟩)
  refine ⟨Or.inl rfl, h.1 (Or.inl rfl) |>.1, rfl, ?_⟩
  exact h.2.2.2.2.2.2.2.2.2.2.2.2.2.2.2.2.1 rfl

/-- C7: `GlinContracts.set_keypair` installs the new keypair on the bundle
and on all three sub-wrappers, and changes no other field of any of the
four objects. -/
theorem C7_set_keypair_propagates_and_preserves :
    ∀ (gc : GlinContracts) (k : Keypair),
      (GlinContracts.set_keypair gc k).keypair = some k ∧
      (GlinContracts.set_keypair gc k).escrow.keypair = some k ∧
      (GlinContracts.set_keypair gc k).registry.keypair = some k ∧
      (GlinContracts.set_keypair gc k).arbitration.keypair = some k ∧
      (GlinContracts.set_keypair gc k).substrate = gc.substrate ∧
      (GlinContracts.set_keypair gc k).escrow.substrate =
        gc.escrow.substrate ∧
      (GlinContracts.set_keypair gc k).escrow.contract_address =
        gc.escrow.contract_address ∧
      (GlinContracts.set_keypair gc k).escrow.contract =
        gc.escrow.contract ∧
      (GlinContracts.set_keypair gc k).registry.substrate =
        gc.registry.substrate ∧
      (GlinContracts.set_keypair gc k).registry.contract_address =
        gc.registry.contract_address ∧
      (GlinContracts.set_keypair gc k).registry.contract =
        gc.registry.contract ∧
      (GlinContracts.set_keypair gc k).arbitration.substrate =
        gc.arbitration.substrate ∧
      (GlinContracts.set_keypair gc k).arbitration.contract_address =
        gc.arbitration.contract_address ∧
      (GlinContracts.set_keypair gc k).arbitration.contract =
        gc.arbitration.contract :=
  fun gc k =>
    ⟨rfl, rfl, rfl, rfl, rfl, rfl, rfl, rfl, rfl, rfl, rfl, rfl, rfl, rfl⟩

/-- C8 counterexample: `GlinContracts.get_contract_balance` and
`GlinClient.get_balance` are read-only query operations with no
try-block; at the concrete raising query outcome "connection lost" the
exception escapes to the caller instead of being converted to the "0"
default. -/
theorem C8_counterexample_query_exception_escapes :
    GlinContracts.get_contract_balance (Except.error "connection lost") =
      Except.error "connection lost" ∧
    GlinContracts.get_contract_balance (Except.error "connection lost") ≠
      Except.ok "0" ∧
    GlinClient.get_balance (Except.error "connection lost") =
      Except.error "connection lost" := by
  refine ⟨rfl, ?_, rfl⟩
  simp [GlinContracts.get_contract_balance]

/-- C8 amended: the read-only query operations that wrap their query in a
try-block — `get_task`, `get_provider`, `is_contract` — convert every
exception to the same default returned for genuine absence, so absence
and failure are indistinguishable there; the unguarded query operations
(`get_balance`, `get_contract_balance`) are excluded. -/
theorem C8_guarded_queries_default_on_exception :
    ∀ (e task_id address : String),
      GlinClient.get_task task_id (.error e) = none ∧
      GlinClient.get_task task_id (.ok none) = none ∧
      GlinClient.get_task task_id (.error e) =
        GlinClient.get_task task_id (.ok none) ∧
      GlinClient.get_provider address (.error e) = none ∧
      GlinClient.get_provider address (.ok none) = none ∧
      GlinClient.get_provider address (.error e) =
        GlinClient.get_provider address (.ok none) ∧
      GlinContracts.is_contract (.error e) = false ∧
      GlinContracts.is_contract (.ok none) = false ∧
      GlinContracts.is_contract (.error e) =
        GlinContracts.is_contract (.ok none) :=
  fun _ _ _ => ⟨rfl, rfl, rfl, rfl, rfl, rfl, rfl, rfl, rfl⟩

/-- C9: for every `System.Account` record with integer free and reserved
balances, `get_balance` renders all four fields as decimal strings and
the total is the exact integer sum of free and reserved: decoding the
decimal strings recovers `total = free + reserved` exactly. -/
theorem C9_get_balance_total_exact :
    ∀ d : GlinContracts.AccountData,
      ∃ b : Balance,
        GlinClient.get_balance (.ok d) = .ok b ∧
        b.free = Nat.repr d.free ∧
        b.reserved = Nat.repr d.reserved ∧
        b.frozen = Nat.repr (d.frozen.getD (d.miscFrozen.getD 0)) ∧
        b.total = Nat.repr (d.free + d.reserved) ∧
        decodeDec b.total = decodeDec b.free + decodeDec b.reserved := by
  intro d
  refine ⟨_, rfl, rfl, rfl, rfl, rfl, ?_⟩
  simp only [decodeDec_repr]

/-- C10: `get_all_reviews` returns the empty list for every state and
every professional address, because `get_review_count` is always `0`. -/
theorem C10_get_all_reviews_always_empty :
    ∀ (st : RegistryState) (professional : String),
      RegistryContract.get_all_reviews st professional = [] := by
  intro st professional
  simp [RegistryContract.get_all_reviews, RegistryContract.get_review_count]

end GlinSdk
